import Mathlib

/-!
Verification of the GSTR-1 Excel processing pipeline (`src/app.py`).

The pipeline ingests four tabular datasets (SD, SR, TB, GL), resolves
columns by keyword matching, consolidates the sales registers, builds a
GST reconciliation summary, and post-processes the generated workbook
(sign flips, a classification column, lookup formulas, a pivot table and
a summary formula column).  The definitions below are a shallow embedding
of that program: datasets are lists of rows of cell values, pandas and
openpyxl operations are translated into explicit list manipulations, and
fallible steps return `Except`.
-/

set_option maxHeartbeats 1600000
set_option maxRecDepth 8000

namespace GSTR1

/-- A cell value of a tabular dataset: text, a number, or an empty cell.
Numeric cells are modelled as integers: every claim about the pipeline
uses only ring operations and zero tests on amounts. -/
inductive Value where
| str : String → Value
| num : Int → Value
| empty : Value
deriving DecidableEq, Repr

/-- A pandas data frame: named columns plus rows of cells, each row
positional and parallel to the column list. -/
structure DataFrame where
  columns : List String
  rows : List (List Value)
deriving DecidableEq, Repr

/-- The whitespace class used by the `\s` regex on ASCII text
(space, tab, newline, carriage return, vertical tab, form feed). -/
def pyIsSpace (c : Char) : Bool :=
  c = ' ' || c = '\t' || c = '\n' || c = '\r' || c = Char.ofNat 11 || c = Char.ofNat 12

mutual

/-- Replace every maximal run of whitespace by a single space: the effect of
`.str.replace(r"\s+", " ", regex=True)` on the characters of a column name. -/
def collapseWs : List Char → List Char
| [] => []
| c :: rest =>
  if pyIsSpace c then ' ' :: skipWs rest
  else c :: collapseWs rest

/-- After a whitespace run has been replaced by one space, skip the rest of
the run and continue collapsing. -/
def skipWs : List Char → List Char
| [] => []
| c :: rest =>
  if pyIsSpace c then skipWs rest
  else c :: collapseWs rest

end

/-- The effect of `.str.strip()`: drop leading and trailing whitespace. -/
def stripWs (l : List Char) : List Char :=
  ((l.dropWhile pyIsSpace).reverse.dropWhile pyIsSpace).reverse

/-- Normalization applied to one column name by `normalize_columns`:
strip, then collapse internal whitespace runs to single spaces. -/
def normalizeName (s : String) : String :=
  ⟨collapseWs (stripWs s.data)⟩

/-- `normalize_columns`: normalize every column name of a data frame
(names are already strings, so the `astype(str)` step is the identity). -/
def normalize_columns (df : DataFrame) : DataFrame :=
  ⟨df.columns.map normalizeName, df.rows⟩

/-- ASCII lowercasing of one character, the effect of `str.lower()` on the
header alphabet. -/
def lowerChar (c : Char) : Char :=
  if 65 ≤ c.toNat ∧ c.toNat ≤ 90 then Char.ofNat (c.toNat + 32) else c

/-- `str.lower()` on a column name or keyword. -/
def pyLower (s : String) : String :=
  ⟨s.data.map lowerChar⟩

/-- Substring test on strings: some tail of `hay` has `needle` at its front.
Used to model Python's `k.lower() in col.lower()` membership test. -/
def containsSub (hay needle : String) : Bool :=
  hay.data.tails.any (fun t => needle.data.isPrefixOf t)

/-- `find_column_by_keywords`: the first column whose lowercased name
contains every keyword as a substring; raises `KeyError(f"{label} column
not found")` when no column matches. -/
def find_column_by_keywords (df : DataFrame) (keywords : List String) (label : String) :
    Except String String :=
  match df.columns.find? (fun col => keywords.all (fun k => containsSub (pyLower col) (pyLower k))) with
  | some c => Except.ok c
  | none => Except.error (label ++ " column not found")

/-- A GL frame with no header containing "value". -/
def glNoValue : DataFrame :=
  ⟨["Posting Date", "G/L Account Long Text"], []⟩

/-- First index of a column name in a column list (`None` when absent). -/
def idxOf? (c : String) : List String → Option Nat
| [] => none
| x :: xs => if x = c then some 0 else (idxOf? c xs).map (· + 1)

/-- Align one row of frame `df` to the column list `cols` of the
concatenated frame, as `pd.concat` does (missing columns become NaN). -/
def reindexRow (df : DataFrame) (cols : List String) (row : List Value) : List Value :=
  cols.map fun c =>
    match idxOf? c df.columns with
    | some i => row.getD i Value.empty
    | none => Value.empty

/-- `pd.concat([a, b], ignore_index=True)`: the columns are those of `a`
followed by the columns of `b` not already present; the rows are all rows
of `a` followed by all rows of `b`, aligned to the merged columns. -/
def concatFrames (a b : DataFrame) : DataFrame :=
  let cols := a.columns ++ b.columns.filter (fun c => !(a.columns.contains c))
  ⟨cols, a.rows.map (reindexRow a cols) ++ b.rows.map (reindexRow b cols)⟩

/-- The consolidated sales register: SD and SR are column-normalized and
concatenated whole — no SR row is dropped. -/
def df_sales (sd sr : DataFrame) : DataFrame :=
  concatFrames (normalize_columns sd) (normalize_columns sr)

def sdTiny : DataFrame := ⟨["A"], [[Value.num 1]]⟩

def srTiny : DataFrame := ⟨["A"], [[Value.num 2]]⟩

/-- The three GST account category labels. -/
def gst_accounts : List String :=
  ["Central GST Payable", "Integrated GST Payable", "State GST Payable"]

/-- The cell of a row under the given column name (`NaN` when absent). -/
def cellOf (df : DataFrame) (row : List Value) (c : String) : Value :=
  match idxOf? c df.columns with
  | some j => row.getD j Value.empty
  | none => Value.empty

/-- `isin(gst_accounts)` on one cell: a case-sensitive exact match against
the three category labels (non-string cells never match). -/
def isinGst (v : Value) : Bool :=
  match v with
  | Value.str s => gst_accounts.contains s
  | _ => false

/-- `astype(str)` on one cell.  Numbers render as their decimal digits;
an empty cell renders as "nan". -/
def pyStr (v : Value) : String :=
  match v with
  | Value.str s => s
  | Value.num q => toString q
  | Value.empty => "nan"

/-- The GST-payable subset of the GL: rows whose long-text cell is one of
the three category labels. -/
def dfGst (df : DataFrame) (gl_text : String) : DataFrame :=
  ⟨df.columns, df.rows.filter fun r => isinGst (cellOf df r gl_text)⟩

/-- `str.startswith` on strings. -/
def strStartsWith (s pre : String) : Bool :=
  pre.data.isPrefixOf s.data

/-- The revenue subset of the GL: rows whose account cell, coerced to
text, starts with "3". -/
def dfRev (df : DataFrame) (gl_acct : String) : DataFrame :=
  ⟨df.columns, df.rows.filter fun r => strStartsWith (pyStr (cellOf df r gl_acct)) "3"⟩

/-- A GL frame with a row that lies in both the GST-payable subset (its
text cell is a category label) and the revenue subset (its account cell
renders as "3…"). -/
def dualRowFrame : DataFrame :=
  ⟨["T", "A"], [[Value.str "Central GST Payable", Value.num 3]]⟩

/-- Numeric view of a cell (amount and period columns are numeric on the
domain of the reconciliation claims). -/
def valNum (v : Value) : Int :=
  match v with
  | Value.num q => q
  | _ => 0

/-- The grouping key contributed by one cell (the category labels that are
actually grouped on are strings). -/
def strKey (v : Value) : String :=
  pyStr v

/-- Lexicographic comparison of strings by unicode scalar values, the
ascending order `groupby(sort=True)` applies to group keys. -/
def leChars : List Char → List Char → Bool
| [], _ => true
| _ :: _, [] => false
| a :: as, b :: bs =>
  if a < b then true
  else if b < a then false
  else leChars as bs

def insertSorted (s : String) : List String → List String
| [] => [s]
| t :: ts => if leChars s.data t.data then s :: t :: ts else t :: insertSorted s ts

/-- Ascending sort of the distinct group keys. -/
def sortStrings (l : List String) : List String :=
  l.foldr insertSorted []

/-- `df.groupby(keyCol, as_index=False)[valCol].sum()`: one pair per
distinct key, keys ascending, each value the sum of the `valCol` cells of
that key's rows. -/
def groupbySum (df : DataFrame) (keyCol valCol : String) : List (String × Int) :=
  let ks := sortStrings ((df.rows.map (fun r => strKey (cellOf df r keyCol))).dedup)
  ks.map (fun k => (k,
    ((df.rows.filter (fun r => strKey (cellOf df r keyCol) == k)).map
      (fun r => valNum (cellOf df r valCol))).sum))

/-- Column assignment `df[name] = vals`: replace the column when it already
exists, otherwise append it on the right. -/
def setColumn (df : DataFrame) (name : String) (vals : List Value) : DataFrame :=
  match idxOf? name df.columns with
  | some j => ⟨df.columns, (df.rows.zip vals).map (fun rv => rv.1.set j rv.2)⟩
  | none => ⟨df.columns ++ [name], (df.rows.zip vals).map (fun rv => rv.1 ++ [rv.2])⟩

/-- The trial balance filtered to the three GST categories, with the
per-row column "Difference as per TB" = Credit − Debit assigned. -/
def tbGst (df_tb : DataFrame) (tb_text credit debit : String) : DataFrame :=
  setColumn (dfGst df_tb tb_text) "Difference as per TB"
    ((dfGst df_tb tb_text).rows.map
      (fun r => Value.num (valNum (cellOf (dfGst df_tb tb_text) r credit)
        - valNum (cellOf (dfGst df_tb tb_text) r debit))))

/-- Lookup into an aggregate with a default of 0, the effect of the left
join followed by `fillna(0)`. -/
def lookupD (l : List (String × Int)) (k : String) : Int :=
  match l.lookup k with
  | some v => v
  | none => 0

/-- The merged reconciliation summary: the GL aggregate left-joined with
the TB aggregate on "GST Type", missing TB values filled with 0. -/
def mkSummary (dfG dfT : DataFrame) (gl_text val_col tb_text : String) : DataFrame :=
  let glAgg := groupbySum dfG gl_text val_col
  let tbAgg := groupbySum dfT tb_text "Difference as per TB"
  ⟨["GST Type", "GST Payable as per GL", "Difference as per TB"],
   glAgg.map (fun p => [Value.str p.1, Value.num p.2, Value.num (lookupD tbAgg p.1)])⟩

/-- `summary_df`: the whole reconciliation-summary construction from the GL
and TB frames with their resolved column names. -/
def summary_df (df_gl df_tb : DataFrame) (gl_text val_col tb_text credit debit : String) :
    DataFrame :=
  mkSummary (dfGst df_gl gl_text) (tbGst df_tb tb_text credit debit) gl_text val_col tb_text

/-- A formula cell written into a worksheet: 1-based row and column, the
formula text, and the number format applied to the cell. -/
structure FormulaCell where
  row : Nat
  col : Nat
  formula : String
  numberFormat : String
deriving DecidableEq, Repr

/-- The summary finalize pass (the last composition step): the header
"Net Difference" written at row 1, column 4, and for each data row r in
2..max_row the formula "=B{r}+C{r}" with number format "0.00" in column 4. -/
def summaryFinalize (maxRow : Nat) : (Nat × Nat × String) × List FormulaCell :=
  ((1, 4, "Net Difference"),
   (List.range' 2 (maxRow - 1)).map
     (fun r => ⟨r, 4, "=B" ++ toString r ++ "+C" ++ toString r, "0.00"⟩))

/-- The value spreadsheet software computes for the written formula
"=B{r}+C{r}": the SUM of the row's column-B (GL) and column-C (TB) cells. -/
def netDiffFormulaValue (b c : Int) : Int := b + c

def glCex : DataFrame :=
  ⟨["G/L Long Text", "Value"], [[Value.str "Central GST Payable", Value.num 18]]⟩

def tbCex : DataFrame :=
  ⟨["TB Text", "Debit", "Credit"],
   [[Value.str "Central GST Payable", Value.num 0, Value.num 18]]⟩

/-- `get_column_letter_by_header`: find the (0-based index of the) first
column whose header equals the given name exactly; `KeyError` otherwise. -/
def headerIdx (ws : DataFrame) (h : String) : Except String Nat :=
  match idxOf? h ws.columns with
  | some j => Except.ok j
  | none => Except.error ("Column " ++ h ++ " not found in worksheet")

/-- `cell.value *= -1` guarded by `isinstance(value, (int, float))`:
negate a numeric cell, leave any other cell unchanged. -/
def negateIfNum (v : Value) : Value :=
  match v with
  | Value.num q => Value.num (-q)
  | _ => v

def signFlipCell (amtIdx : List Nat) (j : Nat) (v : Value) : Value :=
  if amtIdx.contains j then negateIfNum v else v

/-- The credit-note pass on one row: when the Document Type cell is "C",
negate the numeric cells of the amount columns; otherwise leave the row
untouched. -/
def signFlipRow (dtIdx : Nat) (amtIdx : List Nat) (row : List Value) : List Value :=
  if row.getD dtIdx Value.empty = Value.str "C" then
    (List.range row.length).map (fun j => signFlipCell amtIdx j (row.getD j Value.empty))
  else row

/-- The fixed amount columns negated for credit notes. -/
def amtHeaders : List String :=
  ["Taxable value", "IGST Amt", "CGST Amt", "SGST/UTGST Amt"]

/-- The credit-note sign-normalization pass over the sales register sheet. -/
def signFlipPass (ws : DataFrame) : Except String DataFrame :=
  match headerIdx ws "Document Type" with
  | Except.error e => Except.error e
  | Except.ok dt =>
    match amtHeaders.mapM (fun hh => headerIdx ws hh) with
    | Except.error e => Except.error e
    | Except.ok amts => Except.ok ⟨ws.columns, ws.rows.map (signFlipRow dt amts)⟩

def wsFlip : DataFrame :=
  ⟨["Document Type", "Taxable value", "IGST Amt", "CGST Amt", "SGST/UTGST Amt"],
   [[Value.str "C", Value.num 5, Value.num 1, Value.str "x", Value.empty]]⟩

/-- `float(x or 0)` applied to a tax-rate cell: falsy cells (empty cell,
blank text, zero) coerce to 0, digit strings parse, any other string
raises ValueError. -/
def pyFloat (v : Value) : Except String Int :=
  match v with
  | Value.num q => Except.ok q
  | Value.empty => Except.ok 0
  | Value.str s =>
    if s = "" then Except.ok 0
    else if s.data.all Char.isDigit then
      Except.ok (Int.ofNat (s.data.foldl (fun acc c => acc * 10 + (c.toNat - 48)) 0))
    else Except.error ("could not convert string to float: " ++ s)

/-- The per-row classification chain producing the "Sales summary" label,
in exact source order. -/
def classify (it dt : Value) (tr : Int) : String :=
  if it = Value.str "SEWOP" then "SEZWOP"
  else if it = Value.str "SEWP" then "SEWP"
  else if (it ≠ Value.str "SEWOP" ∧ it ≠ Value.str "SEWP") ∧ tr = 0 then "Exempt supply"
  else if it = Value.str "B2B" ∧ dt = Value.str "C" ∧ tr ≠ 0 then "B2B Credit Notes"
  else if it = Value.str "B2B" ∧ dt ≠ Value.str "C" ∧ tr ≠ 0 then "B2B Supplies"
  else if it = Value.str "B2CS" ∧ tr ≠ 0 then "B2C Supplies"
  else ""

/-- The fixed label set of the "Sales summary" column ("" = unclassified). -/
def salesSummaryLabels : List String :=
  ["SEZWOP", "SEWP", "Exempt supply", "B2B Credit Notes", "B2B Supplies", "B2C Supplies", ""]

/-- Excel column letter of a 1-based column index (A, …, Z, AA, …). -/
def colLetter (n : Nat) : String :=
  if n ≤ 26 then String.singleton (Char.ofNat (64 + n))
  else String.singleton (Char.ofNat (64 + (n - 1) / 26))
    ++ String.singleton (Char.ofNat (65 + (n - 1) % 26))

/-- The two cross-sheet lookup formulas appended for worksheet row r
(live formulas; the system never evaluates them itself). -/
def vlookupFormulas (gf8 revDoc gstDoc : Nat) (r : Nat) : List Value :=
  [Value.str ("=IFERROR(VLOOKUP(" ++ colLetter (gf8 + 1) ++ toString r ++ ",Revenue!"
      ++ colLetter (revDoc + 1) ++ ":" ++ colLetter (revDoc + 1) ++ ",1,FALSE),\"Not Found\")"),
   Value.str ("=IFERROR(VLOOKUP(" ++ colLetter (gf8 + 1) ++ toString r ++ ",\x27GST payable\x27!"
      ++ colLetter (gstDoc + 1) ++ ":" ++ colLetter (gstDoc + 1) ++ ",1,FALSE),\"Not Found\")")]

/-- The classification pass: append the "Sales summary" column computed per
row from the Invoice type, Document Type and coerced Tax rate cells. -/
def classifyPass (ws : DataFrame) (dtIdx : Nat) : Except String DataFrame :=
  match headerIdx ws "Invoice type" with
  | Except.error e => Except.error e
  | Except.ok inv =>
    match headerIdx ws "Tax rate" with
    | Except.error e => Except.error e
    | Except.ok tax =>
      match ws.rows.mapM (fun r =>
        match pyFloat (r.getD tax Value.empty) with
        | Except.error e => Except.error e
        | Except.ok tr => Except.ok (r ++ [Value.str
            (classify (r.getD inv Value.empty) (r.getD dtIdx Value.empty) tr)])) with
      | Except.error e => Except.error e
      | Except.ok rows2 => Except.ok ⟨ws.columns ++ ["Sales summary"], rows2⟩

/-- The lookup-formula pass: append the "Revenue VLOOKUP" and
"GST Payable VLOOKUP" formula columns to the register. -/
def vlookupPass (ws wsRev wsGst : DataFrame) : Except String DataFrame :=
  match headerIdx ws "Generic Field 8" with
  | Except.error e => Except.error e
  | Except.ok gf8 =>
    match headerIdx wsRev "Document Number" with
    | Except.error e => Except.error e
    | Except.ok revDoc =>
      match headerIdx wsGst "Document Number" with
      | Except.error e => Except.error e
      | Except.ok gstDoc =>
        Except.ok ⟨ws.columns ++ ["Revenue VLOOKUP", "GST Payable VLOOKUP"],
          ws.rows.enum.map (fun p => p.2 ++ vlookupFormulas gf8 revDoc gstDoc (p.1 + 2))⟩

/-- The class names the `openpyxl.pivot.table` module exports, as the
openpyxl library the script imports defines them: the pivot-table
definition class is `TableDefinition` — there is no `PivotTable`. -/
def openpyxlPivotTableExports : List String :=
  ["HierarchyUsage", "ColHierarchiesUsage", "RowHierarchiesUsage", "PivotFilter",
   "PivotFilters", "PivotTableStyle", "MemberList", "MemberProperty", "PivotHierarchy",
   "Reference", "PivotArea", "ChartFormat", "ConditionalFormat", "ConditionalFormatList",
   "Format", "FormatList", "PageField", "DataField", "RowColField", "RowColItem",
   "AutoSortScope", "FieldItem", "PivotField", "Location", "TableDefinition"]

/-- The class names the `openpyxl.pivot.cache` module exports, as the
openpyxl library defines them: the cache definition class is
`CacheDefinition` — there is no `PivotCache`. -/
def openpyxlPivotCacheExports : List String :=
  ["MeasureDimensionMap", "MeasureGroup", "PivotDimension", "CalculatedMember",
   "CalculatedItem", "ServerFormat", "ServerFormatList", "Query", "QueryCache",
   "OLAPSet", "OLAPSets", "PCDSDTCEntries", "TupleCache", "PCDKPI", "GroupMember",
   "GroupMembers", "LevelGroup", "Groups", "GroupLevel", "GroupLevels", "FieldUsage",
   "FieldsUsage", "CacheHierarchy", "GroupItems", "DiscretePr", "RangePr", "FieldGroup",
   "SharedItems", "CacheField", "CacheSource", "WorksheetSource", "CacheDefinition"]

/-- The names the line-6 from-statement requests from openpyxl.pivot.table. -/
def pivotTableImportNames : List String :=
  ["PivotTable", "PivotField", "Reference"]

/-- The names the line-7 from-statement requests from openpyxl.pivot.cache. -/
def pivotCacheImportNames : List String :=
  ["PivotCache", "CacheDefinition"]

/-- The module-level from-statements of lines 6 and 7 of the script: each
requested name is resolved against its module's exports, and the first
missing name raises ImportError at startup, before any further line of the
script — the page, the upload widgets, the button and the guarded handler
included — ever runs. -/
def importScript : Except String Unit :=
  match pivotTableImportNames.find? (fun n => !(openpyxlPivotTableExports.contains n)) with
  | some n => Except.error
      ("ImportError: cannot import name \x27" ++ n ++ "\x27 from \x27openpyxl.pivot.table\x27")
  | none =>
    match pivotCacheImportNames.find? (fun n => !(openpyxlPivotCacheExports.contains n)) with
    | some n => Except.error
        ("ImportError: cannot import name \x27" ++ n ++ "\x27 from \x27openpyxl.pivot.cache\x27")
    | none => Except.ok ()

/-- The headers the pivot construction resolves on the annotated register
(lines 176-185: the source-range column letter and the field indices). -/
def pivotHeaders : List String :=
  ["GSTIN of Taxpayer", "Sales summary", "Taxable value", "IGST Amt", "CGST Amt",
   "SGST/UTGST Amt"]

/-- The pivot-construction block (lines 170-213): create the pivot sheet,
resolve the source range and field indices (lines 176-185), then build
PivotCache(cacheSource=CacheDefinition(Reference(...))), the PivotTable,
its page/row/data fields and add_pivot_table (lines 188-213) out of the
bindings of the line-6/7 from-statements.  Those statements never resolve
(the module fails to load), so the block — were it ever entered — has no
bindings to run with: every construction from line 188 on begins with a
name the failed pivot imports were to provide.  The block is therefore
modelled up to the availability of those bindings, failing with the import
error; the constructor calls behind them and the pd.api.types.DataField
read of line 210 lie beyond the first missing binding and are never
evaluated (the ok branch below is unreachable). -/
def pivotStep (ws : DataFrame) : Except String Unit :=
  match pivotHeaders.mapM (fun hh => headerIdx ws hh) with
  | Except.error e => Except.error e
  | Except.ok _ =>
    match importScript with
    | Except.error e => Except.error e
    | Except.ok _ => Except.ok ()

/-- The sheets held in memory after the pre-pivot stages. -/
structure PreState where
  sales : DataFrame
  rev : DataFrame
  gst : DataFrame
  summary : DataFrame
deriving Repr

/-- Loading, merging, reconciliation, the workbook write and the first
three post-processing passes (sign flip, classification, lookup columns),
in source order — everything before the pivot construction. -/
def stagesBeforePivot (sd sr tb gl : DataFrame) : Except String PreState := do
  let sales := df_sales sd sr
  let gln := normalize_columns gl
  let gl_text ← find_column_by_keywords gln ["g/l", "long", "text"] "GL Text"
  let gl_acct ← find_column_by_keywords gln ["g/l", "account"] "GL Account"
  let val_col ← find_column_by_keywords gln ["value"] "Amount"
  let _doc_col ← find_column_by_keywords gln ["document"] "Document"
  let dfg := dfGst gln gl_text
  let dfr := dfRev gln gl_acct
  let tbn := normalize_columns tb
  let tb_text ← find_column_by_keywords tbn ["g/l", "acct", "long"] "TB Text"
  let debit ← find_column_by_keywords tbn ["period", "d"] "Debit"
  let credit ← find_column_by_keywords tbn ["period", "c"] "Credit"
  let summ := summary_df gln tbn gl_text val_col tb_text credit debit
  let dt ← headerIdx sales "Document Type"
  let ws1 ← signFlipPass sales
  let ws2 ← classifyPass ws1 dt
  let ws3 ← vlookupPass ws2 dfr dfg
  pure ⟨ws3, dfr, dfg, summ⟩

/-- The whole guarded processing block: the pre-pivot stages, the pivot
construction (which always raises), then — unreachably — the summary
finalize, the save, and the recording of the output bytes. -/
def processFiles (sd sr tb gl : DataFrame) : Except String (List String) :=
  match stagesBeforePivot sd sr tb gl with
  | Except.error e => Except.error e
  | Except.ok pre =>
    match pivotStep pre.sales with
    | Except.error e => Except.error e
    | Except.ok _ =>
      let _fin := summaryFinalize (pre.summary.rows.length + 1)
      Except.ok ["GSTR-1 Workbook.xlsx"]

/-- The request-level outcome: the processed flag, the stored output byte
streams (by name), and the status message shown to the requester. -/
structure AppState where
  processed : Bool
  outputs : List String
  message : String
deriving DecidableEq, Repr

/-- The handler around the guarded block: on success store the outputs,
set the flag and show the success message; on any exception show the error
message and store nothing. -/
def runApp (sd sr tb gl : DataFrame) : AppState :=
  match processFiles sd sr tb gl with
  | Except.ok outs => ⟨true, outs, "Processing completed successfully"⟩
  | Except.error e => ⟨false, [], "Error: " ++ e⟩

def sdW : DataFrame :=
  ⟨["Document Type", "Invoice type", "Tax rate", "Taxable value", "IGST Amt", "CGST Amt",
    "SGST/UTGST Amt", "Generic Field 8", "GSTIN of Taxpayer"],
   [[Value.str "I", Value.str "B2B", Value.num 18, Value.num 100, Value.num 18, Value.num 0,
     Value.num 0, Value.str "DOC1", Value.str "27AAAAA0000A1Z5"]]⟩

def srW : DataFrame :=
  ⟨["Document Type", "Invoice type", "Tax rate", "Taxable value", "IGST Amt", "CGST Amt",
    "SGST/UTGST Amt", "Generic Field 8", "GSTIN of Taxpayer"],
   [[Value.str "C", Value.str "B2B", Value.num 18, Value.num 50, Value.num 9, Value.num 0,
     Value.num 0, Value.str "DOC2", Value.str "27AAAAA0000A1Z5"]]⟩

def tbW : DataFrame :=
  ⟨["G/L Acct Long Text", "Period Debit", "Period Credit"],
   [[Value.str "Central GST Payable", Value.num 0, Value.num 18]]⟩

def glW : DataFrame :=
  ⟨["G/L Account Long Text", "G/L Account", "Value", "Document Number"],
   [[Value.str "Central GST Payable", Value.num 200000, Value.num 18, Value.str "GLDOC1"],
    [Value.str "Revenue Account", Value.num 30001, Value.num 100, Value.str "GLDOC2"]]⟩

/-- The outcome of submitting the four files to the script: either the
module failed to load at startup (no UI, no handler, no try/except branch
ever exists) or the guarded handler ran to an AppState. -/
inductive ScriptOutcome where
| importError : String → ScriptOutcome
| handled : AppState → ScriptOutcome
deriving DecidableEq, Repr

/-- One submission of the four files: the module-level from-statements must
resolve before the page, the button and the guarded handler exist at all;
only then does the handler process the upload. -/
def runScript (sd sr tb gl : DataFrame) : ScriptOutcome :=
  match importScript with
  | Except.error e => ScriptOutcome.importError e
  | Except.ok _ => ScriptOutcome.handled (runApp sd sr tb gl)

/-- Whether the guarded handler (the try/except around processing) ran. -/
def handlerRan : ScriptOutcome → Bool
| ScriptOutcome.handled _ => true
| ScriptOutcome.importError _ => false

/-- Whether the success message was shown for this submission. -/
def successShown : ScriptOutcome → Bool
| ScriptOutcome.handled s => s.processed
| ScriptOutcome.importError _ => false

/-- The output byte streams stored for download by this submission. -/
def storedOutputs : ScriptOutcome → List String
| ScriptOutcome.handled s => s.outputs
| ScriptOutcome.importError _ => []

/-- Whether the four inputs pass loading, merging, reconciliation and the
pre-pivot post-processing passes of the handler body. -/
def stagesOk (sd sr tb gl : DataFrame) : Bool :=
  match stagesBeforePivot sd sr tb gl with
  | Except.ok _ => true
  | Except.error _ => false

/-- Whether the pivot-construction block can complete. -/
def pivotStepOk (ws : DataFrame) : Bool :=
  match pivotStep ws with
  | Except.ok _ => true
  | Except.error _ => false

theorem dropWhile_len_le (p : Char → Bool) (l : List Char) :
    (l.dropWhile p).length ≤ l.length := by
  induction l with
  | nil => simp
  | cons c t ih =>
    rw [List.dropWhile_cons]
    by_cases h : p c
    · simp only [h, if_true]
      exact Nat.le_succ_of_le ih
    · simp [h]

theorem skipWs_eq (l : List Char) : skipWs l = collapseWs (l.dropWhile pyIsSpace) := by
  induction l with
  | nil => rfl
  | cons c rest ih =>
    rw [List.dropWhile_cons]
    by_cases h : pyIsSpace c
    · simp only [skipWs, if_pos h, ih]
    · simp only [skipWs, if_neg h, collapseWs]

theorem collapseWs_nil : collapseWs [] = [] := rfl

theorem collapseWs_cons (c : Char) (rest : List Char) :
    collapseWs (c :: rest) =
      if pyIsSpace c then ' ' :: collapseWs (rest.dropWhile pyIsSpace)
      else c :: collapseWs rest := by
  by_cases h : pyIsSpace c
  · simp only [collapseWs, if_pos h, skipWs_eq]
  · simp only [collapseWs, if_neg h]

theorem dropWhile_idem (p : Char → Bool) (l : List Char) :
    (l.dropWhile p).dropWhile p = l.dropWhile p := by
  induction l with
  | nil => simp
  | cons c t ih =>
    rw [List.dropWhile_cons]
    by_cases h : p c
    · simp [h, ih]
    · simp [List.dropWhile_cons, h]

theorem dropWhile_head_false (p : Char → Bool) (l : List Char) (c : Char) (t : List Char)
    (h : l.dropWhile p = c :: t) : p c = false := by
  induction l with
  | nil => simp at h
  | cons a as ih =>
    rw [List.dropWhile_cons] at h
    by_cases ha : p a
    · rw [if_pos ha] at h
      exact ih h
    · rw [if_neg ha] at h
      obtain ⟨rfl, rfl⟩ := List.cons.inj h
      exact Bool.eq_false_iff.mpr ha

theorem collapse_drop (l : List Char) :
    (collapseWs l).dropWhile pyIsSpace = collapseWs (l.dropWhile pyIsSpace) := by
  suffices h : ∀ n (l : List Char), l.length ≤ n →
      (collapseWs l).dropWhile pyIsSpace = collapseWs (l.dropWhile pyIsSpace) by
    exact h l.length l (Nat.le_refl _)
  intro n
  induction n with
  | zero =>
    intro l hl
    match l with
    | [] => simp [collapseWs_nil]
  | succ n ih =>
    intro l hl
    match l with
    | [] => simp [collapseWs_nil]
    | c :: rest =>
      by_cases hc : pyIsSpace c
      · have hsp : pyIsSpace ' ' = true := rfl
        simp only [collapseWs_cons, List.dropWhile_cons, hc, hsp, if_true]
        have hlen : (rest.dropWhile pyIsSpace).length ≤ n := by
          have h1 := dropWhile_len_le pyIsSpace rest
          simp only [List.length_cons] at hl
          omega
        rw [ih _ hlen, dropWhile_idem]
      · simp only [collapseWs_cons, List.dropWhile_cons, if_neg hc]

theorem collapse_idem (l : List Char) : collapseWs (collapseWs l) = collapseWs l := by
  suffices h : ∀ n (l : List Char), l.length ≤ n →
      collapseWs (collapseWs l) = collapseWs l by
    exact h l.length l (Nat.le_refl _)
  intro n
  induction n with
  | zero =>
    intro l hl
    match l with
    | [] => simp [collapseWs_nil]
  | succ n ih =>
    intro l hl
    match l with
    | [] => simp [collapseWs_nil]
    | c :: rest =>
      by_cases hc : pyIsSpace c
      · rw [collapseWs_cons, if_pos hc, collapseWs_cons,
          if_pos (show pyIsSpace ' ' = true from rfl)]
        congr 1
        rw [collapse_drop, dropWhile_idem]
        have hlen : (rest.dropWhile pyIsSpace).length ≤ n := by
          have h1 := dropWhile_len_le pyIsSpace rest
          simp only [List.length_cons] at hl
          omega
        exact ih _ hlen
      · rw [collapseWs_cons, if_neg hc, collapseWs_cons, if_neg hc]
        congr 1
        have hlen : rest.length ≤ n := by
          simp only [List.length_cons] at hl
          omega
        exact ih rest hlen

theorem collapse_ne_nil (m : List Char) (hm : m ≠ []) : collapseWs m ≠ [] := by
  match m with
  | c :: rest =>
    rw [collapseWs_cons]
    split <;> simp

theorem getLast?_cons_ne (a : Char) (X : List Char) (hX : X ≠ []) :
    (a :: X).getLast? = X.getLast? := by
  match X with
  | x :: xs => exact List.getLast?_cons_cons

theorem dropWhile_nil_all (p : Char → Bool) (l : List Char)
    (h : l.dropWhile p = []) : ∀ x ∈ l, p x = true := by
  induction l with
  | nil => simp
  | cons a as ih =>
    rw [List.dropWhile_cons] at h
    by_cases ha : p a
    · rw [if_pos ha] at h
      intro x hx
      rcases List.mem_cons.mp hx with rfl | hx
      · exact ha
      · exact ih h x hx
    · rw [if_neg ha] at h
      simp at h

theorem getLast?_of_suffix (s t : List Char) (hs : s ≠ []) (h : s <:+ t) :
    t.getLast? = s.getLast? := by
  obtain ⟨u, rfl⟩ := h
  rw [List.getLast?_append]
  match hlast : s.getLast? with
  | some y => rfl
  | none => exact absurd (List.getLast?_eq_none_iff.mp hlast) hs

theorem collapse_getLast (m : List Char)
    (hm : ∀ c, m.getLast? = some c → pyIsSpace c = false) :
    ∀ c, (collapseWs m).getLast? = some c → pyIsSpace c = false := by
  suffices h : ∀ n (m : List Char), m.length ≤ n →
      (∀ c, m.getLast? = some c → pyIsSpace c = false) →
      ∀ c, (collapseWs m).getLast? = some c → pyIsSpace c = false by
    exact h m.length m (Nat.le_refl _) hm
  intro n
  induction n with
  | zero =>
    intro m hl hm c hc
    match m with
    | [] => rw [collapseWs_nil] at hc; simp at hc
  | succ n ih =>
    intro m hl hm c hc
    match m with
    | [] => rw [collapseWs_nil] at hc; simp at hc
    | c₀ :: rest =>
      simp only [List.length_cons] at hl
      by_cases h0 : pyIsSpace c₀
      · rw [collapseWs_cons, if_pos h0] at hc
        by_cases hd : rest.dropWhile pyIsSpace = []
        · rw [hd, collapseWs_nil] at hc
          simp only [List.getLast?_singleton, Option.some.injEq] at hc
          subst hc
          -- the hypothesis on m is contradictory: the final character of m is whitespace
          exfalso
          match rest, hd, hm with
          | [], _, hm =>
            have := hm c₀ (by simp)
            rw [h0] at this
            exact Bool.true_eq_false.mp this
          | r :: rs, hd, hm =>
            have hne : (r :: rs : List Char) ≠ [] := by simp
            match hlast : (r :: rs : List Char).getLast? with
            | none => exact hne (List.getLast?_eq_none_iff.mp hlast)
            | some y =>
              have hy : y ∈ r :: rs := List.mem_of_getLast?_eq_some hlast
              have hyw : pyIsSpace y = true :=
                dropWhile_nil_all pyIsSpace (r :: rs) hd y hy
              have hyf : pyIsSpace y = false := by
                apply hm
                rw [getLast?_cons_ne c₀ (r :: rs) hne]
                exact hlast
              rw [hyw] at hyf
              exact Bool.true_eq_false.mp hyf
        · have hcoll : collapseWs (rest.dropWhile pyIsSpace) ≠ [] :=
            collapse_ne_nil _ hd
          rw [getLast?_cons_ne ' ' _ hcoll] at hc
          have hrestne : rest ≠ [] := by
            intro hr
            rw [hr] at hd
            simp at hd
          have hlen : (rest.dropWhile pyIsSpace).length ≤ n := by
            have := dropWhile_len_le pyIsSpace rest
            omega
          apply ih _ hlen _ c hc
          intro x hx
          apply hm
          rw [getLast?_cons_ne c₀ rest hrestne]
          rw [getLast?_of_suffix _ rest hd (List.dropWhile_suffix pyIsSpace)]
          exact hx
      · rw [collapseWs_cons, if_neg h0] at hc
        by_cases hrest : rest = []
        · subst hrest
          rw [collapseWs_nil] at hc
          simp only [List.getLast?_singleton, Option.some.injEq] at hc
          subst hc
          exact hm c₀ (by simp)
        · have hcoll : collapseWs rest ≠ [] := collapse_ne_nil _ hrest
          rw [getLast?_cons_ne c₀ _ hcoll] at hc
          apply ih rest (by omega) _ c hc
          intro x hx
          apply hm
          rw [getLast?_cons_ne c₀ rest hrest]
          exact hx

theorem dropWhile_fix (p : Char → Bool) (l : List Char)
    (h : ∀ c t, l = c :: t → p c = false) : l.dropWhile p = l := by
  match l with
  | [] => simp
  | c :: t =>
    rw [List.dropWhile_cons, if_neg]
    rw [h c t rfl]
    simp

theorem strip_head_false (l : List Char) (c : Char) (t : List Char)
    (h : stripWs l = c :: t) : pyIsSpace c = false := by
  unfold stripWs at h
  set A := l.dropWhile pyIsSpace with hA
  set B := A.reverse.dropWhile pyIsSpace with hB
  have hBne : B ≠ [] := by
    intro hb
    rw [hb] at h
    simp at h
  have hhead : B.reverse.head? = some c := by
    rw [h]
    simp
  rw [List.head?_reverse] at hhead
  have hrev : A.reverse.getLast? = B.getLast? :=
    getLast?_of_suffix B A.reverse hBne (List.dropWhile_suffix pyIsSpace)
  rw [List.getLast?_reverse] at hrev
  have hheadA : A.head? = some c := by
    rw [hrev, hhead]
  obtain ⟨ys, hys⟩ := List.head?_eq_some_iff.mp hheadA
  exact dropWhile_head_false pyIsSpace l c ys (hA ▸ hys)

theorem strip_last_false (l : List Char) (c : Char)
    (h : (stripWs l).getLast? = some c) : pyIsSpace c = false := by
  unfold stripWs at h
  rw [List.getLast?_reverse] at h
  obtain ⟨ys, hys⟩ := List.head?_eq_some_iff.mp h
  exact dropWhile_head_false pyIsSpace _ c ys hys

theorem strip_collapse_strip (l : List Char) :
    stripWs (collapseWs (stripWs l)) = collapseWs (stripWs l) := by
  set M := collapseWs (stripWs l) with hM
  have h1 : M.dropWhile pyIsSpace = M := by
    apply dropWhile_fix
    intro c t hct
    match hs : stripWs l with
    | [] =>
      rw [hs, collapseWs_nil] at hM
      rw [hM] at hct
      simp at hct
    | c₀ :: rest =>
      have h0 : pyIsSpace c₀ = false := strip_head_false l c₀ rest hs
      rw [hs, collapseWs_cons, if_neg (by rw [h0]; simp)] at hM
      rw [hM] at hct
      obtain ⟨rfl, _⟩ := List.cons.inj hct
      exact h0
  have h2 : M.reverse.dropWhile pyIsSpace = M.reverse := by
    apply dropWhile_fix
    intro c t hct
    have hc : M.getLast? = some c := by
      rw [← List.head?_reverse, hct]
      simp
    exact collapse_getLast (stripWs l) (fun x hx => strip_last_false l x hx) c hc
  unfold stripWs
  rw [h1, h2, List.reverse_reverse]

theorem normalizeName_idem (s : String) :
    normalizeName (normalizeName s) = normalizeName s := by
  unfold normalizeName
  congr 1
  show collapseWs (stripWs (collapseWs (stripWs s.data))) = collapseWs (stripWs s.data)
  rw [strip_collapse_strip, collapse_idem]

/-- C10: `normalize_columns` is idempotent — a second application leaves the
column names (and the whole frame) unchanged. -/
theorem normalize_columns_idem (df : DataFrame) :
    (normalize_columns (normalize_columns df)).columns = (normalize_columns df).columns := by
  unfold normalize_columns
  simp only [List.map_map]
  apply List.map_congr_left
  intro s _
  exact normalizeName_idem s

/-- C4 counterexample: on a GL frame with no header containing "value" the
resolver fails with the bare message "Amount column not found" (the label
passed for this column is "Amount", not "GL Amount"); the message names
neither "GL Amount", nor any available column, nor the keyword. -/
theorem find_column_message_cex :
    find_column_by_keywords glNoValue ["value"] "Amount" = Except.error "Amount column not found"
    ∧ containsSub "Amount column not found" "GL Amount" = false
    ∧ containsSub "Amount column not found" "Posting Date" = false
    ∧ containsSub "Amount column not found" "value" = false := by
  refine ⟨?_, ?_, ?_, ?_⟩ <;> rfl

/-- C4 (amended): when no column of the dataset matches all keywords,
column resolution fails with a `KeyError` whose message is exactly the
semantic label followed by " column not found"; it reports only the label,
not the keywords, the available columns or partial matches.  The label
used for the GL amount column is "Amount", so a GL file with no header
containing "value" aborts with "Amount column not found". -/
theorem find_column_no_match (df : DataFrame) (keywords : List String) (label : String)
    (h : ∀ c ∈ df.columns, ¬(keywords.all (fun k => containsSub (pyLower c) (pyLower k)) = true)) :
    find_column_by_keywords df keywords label = Except.error (label ++ " column not found") := by
  unfold find_column_by_keywords
  split
  next c hf =>
    exact absurd (List.find?_some hf) (h c (List.mem_of_find?_eq_some hf))
  next => rfl

theorem find_column_no_match_witness :
    find_column_by_keywords glNoValue ["value"] "Amount" = Except.error "Amount column not found" :=
  find_column_no_match glNoValue ["value"] "Amount" (by decide)

/-- C3 counterexample: for a one-row SD and a one-row SR the consolidated
register keeps both rows — the first SR row is NOT dropped — so its row
count is 2, not rows(SD) + rows(SR) − 1 = 1. -/
theorem consolidation_drop_cex :
    (df_sales sdTiny srTiny).rows = [[Value.num 1], [Value.num 2]]
    ∧ (df_sales sdTiny srTiny).rows.length = 2
    ∧ ¬((df_sales sdTiny srTiny).rows.length
        = sdTiny.rows.length + srTiny.rows.length - 1) := by
  refine ⟨?_, ?_, ?_⟩ <;> decide

theorem reindex_self (cols : List String) (row : List Value)
    (hnd : cols.Nodup) (hlen : row.length = cols.length) :
    (cols.map fun c =>
      match idxOf? c cols with
      | some i => row.getD i Value.empty
      | none => Value.empty) = row := by
  induction cols generalizing row with
  | nil =>
    simp only [List.length_nil] at hlen
    rw [List.length_eq_zero.mp hlen]
    simp
  | cons c cs ih =>
    match row with
    | v :: vs =>
      simp only [List.length_cons] at hlen
      have hnd2 := List.nodup_cons.mp hnd
      simp only [List.map_cons]
      have hhead : (match idxOf? c (c :: cs) with
          | some i => (v :: vs).getD i Value.empty
          | none => Value.empty) = v := by
        rw [idxOf?, if_pos rfl]
        rfl
      rw [hhead]
      congr 1
      have hcong : ∀ x ∈ cs, (match idxOf? x (c :: cs) with
          | some i => (v :: vs).getD i Value.empty
          | none => Value.empty) =
          (match idxOf? x cs with
          | some i => vs.getD i Value.empty
          | none => Value.empty) := by
        intro x hx
        have hne : c ≠ x := fun h => hnd2.1 (h ▸ hx)
        rw [idxOf?, if_neg hne]
        cases hix : idxOf? x cs with
        | none => simp
        | some i => simp
      rw [List.map_congr_left hcong]
      exact ih vs hnd2.2 (by omega)

theorem reindexRow_self (df : DataFrame) (row : List Value)
    (hnd : df.columns.Nodup) (hlen : row.length = df.columns.length) :
    reindexRow df df.columns row = row :=
  reindex_self df.columns row hnd hlen

/-- C3 (amended): for SD and SR frames with identical (duplicate-free)
column lists, the consolidated register is all SD rows followed by ALL SR
rows — the first SR row is not dropped — with SD column order preserved,
and its row count is rows(SD) + rows(SR). -/
theorem consolidation_rows (a b : DataFrame)
    (hcols : b.columns = a.columns) (hnd : a.columns.Nodup)
    (ha : ∀ r ∈ a.rows, r.length = a.columns.length)
    (hb : ∀ r ∈ b.rows, r.length = b.columns.length) :
    (concatFrames a b).columns = a.columns
    ∧ (concatFrames a b).rows = a.rows ++ b.rows
    ∧ (concatFrames a b).rows.length = a.rows.length + b.rows.length := by
  have hfilter : b.columns.filter (fun c => !(a.columns.contains c)) = [] := by
    apply List.filter_eq_nil_iff.mpr
    intro c hc
    rw [hcols] at hc
    simpa using hc
  have hcolseq : (concatFrames a b).columns = a.columns := by
    show a.columns ++ b.columns.filter (fun c => !(a.columns.contains c)) = a.columns
    rw [hfilter, List.append_nil]
  have hrows : (concatFrames a b).rows = a.rows ++ b.rows := by
    show a.rows.map (reindexRow a (a.columns ++ b.columns.filter (fun c => !(a.columns.contains c))))
        ++ b.rows.map (reindexRow b (a.columns ++ b.columns.filter (fun c => !(a.columns.contains c))))
        = a.rows ++ b.rows
    rw [hfilter, List.append_nil]
    congr 1
    · have hpt : ∀ r ∈ a.rows, reindexRow a a.columns r = r := by
        intro r hr
        exact reindexRow_self a r hnd (ha r hr)
      rw [List.map_congr_left hpt, List.map_id']
    · have hpt : ∀ r ∈ b.rows, reindexRow b a.columns r = r := by
        intro r hr
        have hres := reindexRow_self b r (hcols ▸ hnd) (hb r hr)
        rwa [hcols] at hres
      rw [List.map_congr_left hpt, List.map_id']
  exact ⟨hcolseq, hrows, by rw [hrows, List.length_append]⟩

theorem consolidation_rows_witness :
    (concatFrames sdTiny srTiny).rows = sdTiny.rows ++ srTiny.rows
    ∧ (concatFrames sdTiny srTiny).rows.length = sdTiny.rows.length + srTiny.rows.length :=
  ⟨(consolidation_rows sdTiny srTiny (by decide) (by decide) (by decide) (by decide)).2.1,
   (consolidation_rows sdTiny srTiny (by decide) (by decide) (by decide) (by decide)).2.2⟩

theorem isinGst_iff (v : Value) :
    isinGst v = true ↔
      (v = Value.str "Central GST Payable"
        ∨ v = Value.str "Integrated GST Payable"
        ∨ v = Value.str "State GST Payable") := by
  cases v with
  | str s =>
    simp [isinGst, gst_accounts, List.contains, List.elem_iff]
  | num q => simp [isinGst]
  | empty => simp [isinGst]

/-- C7: the GST-payable subset holds exactly the rows whose long-text cell
is a case-sensitive exact match of one of the three category labels, the
revenue subset holds exactly the rows whose account cell coerced to text
starts with "3", both preserve the GL columns, and the two filters are
independent — a row can belong to both. -/
theorem gl_subsets_characterization (df : DataFrame) (gl_text gl_acct : String) :
    (∀ r, r ∈ (dfGst df gl_text).rows ↔
        r ∈ df.rows ∧ (cellOf df r gl_text = Value.str "Central GST Payable"
          ∨ cellOf df r gl_text = Value.str "Integrated GST Payable"
          ∨ cellOf df r gl_text = Value.str "State GST Payable"))
    ∧ (∀ r, r ∈ (dfRev df gl_acct).rows ↔
        r ∈ df.rows ∧ strStartsWith (pyStr (cellOf df r gl_acct)) "3" = true)
    ∧ (dfGst df gl_text).columns = df.columns
    ∧ (dfRev df gl_acct).columns = df.columns
    ∧ ([Value.str "Central GST Payable", Value.num 3] ∈ (dfGst dualRowFrame "T").rows
        ∧ [Value.str "Central GST Payable", Value.num 3] ∈ (dfRev dualRowFrame "A").rows) := by
  refine ⟨?_, ?_, rfl, rfl, by decide, by decide⟩
  · intro r
    show r ∈ df.rows.filter _ ↔ _
    rw [List.mem_filter, isinGst_iff]
  · intro r
    show r ∈ df.rows.filter _ ↔ _
    rw [List.mem_filter]

theorem mem_insertSorted (s a : String) (l : List String) :
    a ∈ insertSorted s l ↔ a = s ∨ a ∈ l := by
  induction l with
  | nil => simp [insertSorted]
  | cons t ts ih =>
    rw [insertSorted]
    by_cases h : leChars s.data t.data
    · rw [if_pos h]
      simp
    · rw [if_neg h]
      simp only [List.mem_cons, ih]
      tauto

theorem nodup_insertSorted (s : String) (l : List String)
    (hs : s ∉ l) (hl : l.Nodup) : (insertSorted s l).Nodup := by
  induction l with
  | nil => simp [insertSorted]
  | cons t ts ih =>
    rw [insertSorted]
    have hst : s ≠ t := fun h => hs (h ▸ List.mem_cons_self t ts)
    have hsts : s ∉ ts := fun h => hs (List.mem_cons_of_mem t h)
    have hnd := List.nodup_cons.mp hl
    by_cases h : leChars s.data t.data
    · rw [if_pos h]
      exact List.nodup_cons.mpr ⟨by simp [hst, hsts], hl⟩
    · rw [if_neg h]
      refine List.nodup_cons.mpr ⟨?_, ih hsts hnd.2⟩
      rw [mem_insertSorted]
      push_neg
      exact ⟨fun hh => hst hh.symm, hnd.1⟩

theorem mem_sortStrings (a : String) (l : List String) :
    a ∈ sortStrings l ↔ a ∈ l := by
  induction l with
  | nil => simp [sortStrings]
  | cons t ts ih =>
    show a ∈ insertSorted t (sortStrings ts) ↔ _
    rw [mem_insertSorted, ih]
    simp

theorem nodup_sortStrings (l : List String) (h : l.Nodup) : (sortStrings l).Nodup := by
  induction l with
  | nil => simp [sortStrings]
  | cons t ts ih =>
    have hnd := List.nodup_cons.mp h
    show (insertSorted t (sortStrings ts)).Nodup
    exact nodup_insertSorted t (sortStrings ts)
      (fun hm => hnd.1 ((mem_sortStrings t ts).mp hm)) (ih hnd.2)

theorem lookup_graph (f : String → Int) (ks : List String) (k : String) :
    (ks.map (fun x => (x, f x))).lookup k = if k ∈ ks then some (f k) else none := by
  induction ks with
  | nil => simp
  | cons x xs ih =>
    simp only [List.map_cons, List.lookup]
    by_cases h : k = x
    · subst h
      simp
    · have hbeq : (k == x) = false := beq_false_of_ne h
      rw [hbeq]
      simp only [List.mem_cons, ih]
      by_cases hmem : k ∈ xs
      · rw [if_pos hmem, if_pos (Or.inr hmem)]
      · rw [if_neg hmem, if_neg (by tauto)]

theorem lookupD_graph (f : String → Int) (ks : List String) (k : String) :
    lookupD (ks.map (fun x => (x, f x))) k = if k ∈ ks then f k else 0 := by
  rw [lookupD, lookup_graph]
  by_cases h : k ∈ ks
  · rw [if_pos h, if_pos h]
  · rw [if_neg h, if_neg h]

theorem idxOf?_none (c : String) (l : List String) (h : c ∉ l) : idxOf? c l = none := by
  induction l with
  | nil => rfl
  | cons x xs ih =>
    rw [idxOf?, if_neg (fun hh => h (by rw [← hh]; exact List.mem_cons_self x xs)),
      ih (fun hh => h (List.mem_cons_of_mem x hh))]
    rfl

theorem idxOf?_append_left (c : String) (l₁ l₂ : List String) (h : c ∈ l₁) :
    idxOf? c (l₁ ++ l₂) = idxOf? c l₁ := by
  induction l₁ with
  | nil => simp at h
  | cons x xs ih =>
    rw [List.cons_append, idxOf?, idxOf?]
    by_cases hx : x = c
    · rw [if_pos hx, if_pos hx]
    · rw [if_neg hx, if_neg hx, ih]
      rcases List.mem_cons.mp h with rfl | hh
      · exact absurd rfl hx
      · exact hh

theorem idxOf?_bound (c : String) (l : List String) (j : Nat)
    (h : idxOf? c l = some j) : j < l.length := by
  induction l generalizing j with
  | nil =>
    rw [idxOf?] at h
    exact Option.noConfusion h
  | cons x xs ih =>
    rw [idxOf?] at h
    by_cases hx : x = c
    · rw [if_pos hx] at h
      obtain rfl := Option.some.inj h
      simp
    · rw [if_neg hx] at h
      cases hix : idxOf? c xs with
      | none => rw [hix] at h; simp at h
      | some i =>
        rw [hix] at h
        simp only [Option.map_some'] at h
        obtain rfl := Option.some.inj h
        have := ih i hix
        simp only [List.length_cons]
        omega

theorem idxOf?_mem (c : String) (l : List String) (h : c ∈ l) :
    ∃ j, idxOf? c l = some j := by
  induction l with
  | nil => simp at h
  | cons x xs ih =>
    rw [idxOf?]
    by_cases hx : x = c
    · exact ⟨0, by rw [if_pos hx]⟩
    · rcases List.mem_cons.mp h with rfl | hh
      · exact absurd rfl hx
      · obtain ⟨j, hj⟩ := ih hh
        exact ⟨j + 1, by rw [if_neg hx, hj]; rfl⟩

theorem idxOf?_append_self (c : String) (l : List String) (h : c ∉ l) :
    idxOf? c (l ++ [c]) = some l.length := by
  induction l with
  | nil => simp [idxOf?]
  | cons x xs ih =>
    rw [List.cons_append, idxOf?,
      if_neg (fun hh => h (by rw [← hh]; exact List.mem_cons_self x xs)),
      ih (fun hh => h (List.mem_cons_of_mem x hh))]
    rfl

theorem getD_append_lt (l₁ l₂ : List Value) (j : Nat) (d : Value) (h : j < l₁.length) :
    (l₁ ++ l₂).getD j d = l₁.getD j d := by
  rw [List.getD_eq_getElem?_getD, List.getD_eq_getElem?_getD, List.getElem?_append_left h]

theorem getD_append_len (l : List Value) (x d : Value) :
    (l ++ [x]).getD l.length d = x := by
  rw [List.getD_eq_getElem?_getD, List.getElem?_append_right (Nat.le_refl _)]
  simp

theorem zip_self_map {α β : Type} (l : List α) (g : α → β) :
    l.zip (l.map g) = l.map (fun a => (a, g a)) := by
  induction l with
  | nil => rfl
  | cons a as ih =>
    simp only [List.map_cons, List.zip_cons_cons, ih]

theorem cellOf_columns (df df2 : DataFrame) (r : List Value) (c : String)
    (h : df.columns = df2.columns) : cellOf df r c = cellOf df2 r c := by
  unfold cellOf
  rw [h]

/-- Reading an original column through the frame extended with the fresh
"Difference as per TB" column gives the original cell. -/
theorem cellOf_ext_old (cols : List String) (rows rows2 : List (List Value))
    (n c : String) (r : List Value) (d : Value)
    (hc : c ∈ cols) (hlen : r.length = cols.length) :
    cellOf ⟨cols ++ [n], rows2⟩ (r ++ [d]) c = cellOf ⟨cols, rows⟩ r c := by
  unfold cellOf
  show (match idxOf? c (cols ++ [n]) with
    | some j => (r ++ [d]).getD j Value.empty
    | none => Value.empty) = _
  rw [idxOf?_append_left c cols [n] hc]
  obtain ⟨j, hj⟩ := idxOf?_mem c cols hc
  rw [hj]
  exact getD_append_lt r [d] j Value.empty (hlen ▸ idxOf?_bound c cols j hj)

/-- Reading the fresh appended column gives the assigned value. -/
theorem cellOf_ext_new (cols : List String) (rows2 : List (List Value))
    (n : String) (r : List Value) (d : Value)
    (hn : n ∉ cols) (hlen : r.length = cols.length) :
    cellOf ⟨cols ++ [n], rows2⟩ (r ++ [d]) n = d := by
  unfold cellOf
  show (match idxOf? n (cols ++ [n]) with
    | some j => (r ++ [d]).getD j Value.empty
    | none => Value.empty) = _
  rw [idxOf?_append_self n cols hn]
  show (r ++ [d]).getD cols.length Value.empty = d
  rw [← hlen, getD_append_len]

theorem tbGst_rows (df_tb : DataFrame) (tb_text credit debit : String)
    (hfresh : "Difference as per TB" ∉ df_tb.columns) :
    (tbGst df_tb tb_text credit debit).columns = df_tb.columns ++ ["Difference as per TB"]
    ∧ (tbGst df_tb tb_text credit debit).rows
      = (df_tb.rows.filter (fun r => isinGst (cellOf df_tb r tb_text))).map
          (fun r => r ++ [Value.num (valNum (cellOf df_tb r credit)
            - valNum (cellOf df_tb r debit))]) := by
  unfold tbGst setColumn
  rw [idxOf?_none _ _ (show "Difference as per TB" ∉ (dfGst df_tb tb_text).columns from hfresh)]
  constructor
  · rfl
  · show ((dfGst df_tb tb_text).rows.zip ((dfGst df_tb tb_text).rows.map _)).map _ = _
    rw [zip_self_map, List.map_map]
    rfl

/-- C6: the reconciliation summary is built by filtering the TB to the three
GST categories with per-row Difference = Credit − Debit, group-summing the
GL amount over the GST-payable GL subset and the Difference over the
filtered TB subset, and left-joining TB onto GL by category label: one row
per category present on the GL side (keys are duplicate-free), the TB value
0 where the category is absent on the TB side, and no row for TB-only
categories (every summary key comes from the GL side). -/
theorem summary_characterization
    (df_gl df_tb : DataFrame) (gl_text val_col tb_text credit debit : String)
    (hwf : ∀ r ∈ df_tb.rows, r.length = df_tb.columns.length)
    (hfresh : "Difference as per TB" ∉ df_tb.columns)
    (htxt : tb_text ∈ df_tb.columns) :
    (summary_df df_gl df_tb gl_text val_col tb_text credit debit).columns
      = ["GST Type", "GST Payable as per GL", "Difference as per TB"]
    ∧ (summary_df df_gl df_tb gl_text val_col tb_text credit debit).rows
      = (sortStrings (((df_gl.rows.filter (fun r => isinGst (cellOf df_gl r gl_text))).map
          (fun r => strKey (cellOf df_gl r gl_text))).dedup)).map (fun k =>
          [Value.str k,
           Value.num ((((df_gl.rows.filter (fun r => isinGst (cellOf df_gl r gl_text))).filter
             (fun r => strKey (cellOf df_gl r gl_text) == k)).map
             (fun r => valNum (cellOf df_gl r val_col))).sum),
           Value.num (if k ∈ (df_tb.rows.filter (fun r => isinGst (cellOf df_tb r tb_text))).map
               (fun r => strKey (cellOf df_tb r tb_text))
             then (((df_tb.rows.filter (fun r => isinGst (cellOf df_tb r tb_text))).filter
               (fun r => strKey (cellOf df_tb r tb_text) == k)).map
               (fun r => valNum (cellOf df_tb r credit) - valNum (cellOf df_tb r debit))).sum
             else 0)])
    ∧ (sortStrings (((df_gl.rows.filter (fun r => isinGst (cellOf df_gl r gl_text))).map
        (fun r => strKey (cellOf df_gl r gl_text))).dedup)).Nodup
    ∧ (∀ k, k ∈ sortStrings (((df_gl.rows.filter (fun r => isinGst (cellOf df_gl r gl_text))).map
        (fun r => strKey (cellOf df_gl r gl_text))).dedup)
        ↔ ∃ r, r ∈ df_gl.rows ∧ isinGst (cellOf df_gl r gl_text) = true
          ∧ strKey (cellOf df_gl r gl_text) = k) := by
  have htb := tbGst_rows df_tb tb_text credit debit hfresh
  have hKext : ∀ r ∈ df_tb.rows,
      strKey (cellOf (tbGst df_tb tb_text credit debit)
        (r ++ [Value.num (valNum (cellOf df_tb r credit) - valNum (cellOf df_tb r debit))])
        tb_text)
      = strKey (cellOf df_tb r tb_text) := by
    intro r hr
    rw [cellOf_columns _ ⟨df_tb.columns ++ ["Difference as per TB"], []⟩ _ _ htb.1,
      cellOf_ext_old df_tb.columns df_tb.rows [] "Difference as per TB" tb_text r _ htxt
        (hwf r hr)]
  have hDext : ∀ r ∈ df_tb.rows,
      valNum (cellOf (tbGst df_tb tb_text credit debit)
        (r ++ [Value.num (valNum (cellOf df_tb r credit) - valNum (cellOf df_tb r debit))])
        "Difference as per TB")
      = valNum (cellOf df_tb r credit) - valNum (cellOf df_tb r debit) := by
    intro r hr
    rw [cellOf_columns _ ⟨df_tb.columns ++ ["Difference as per TB"], []⟩ _ _ htb.1,
      cellOf_ext_new df_tb.columns [] "Difference as per TB" r _ hfresh (hwf r hr)]
    rfl
  have hmapkeys : (tbGst df_tb tb_text credit debit).rows.map
      (fun r => strKey (cellOf (tbGst df_tb tb_text credit debit) r tb_text))
      = (df_tb.rows.filter (fun r => isinGst (cellOf df_tb r tb_text))).map
          (fun r => strKey (cellOf df_tb r tb_text)) := by
    rw [htb.2, List.map_map]
    apply List.map_congr_left
    intro r hr
    exact hKext r (List.mem_of_mem_filter hr)
  have hvals : ∀ k, ((tbGst df_tb tb_text credit debit).rows.filter
        (fun r => strKey (cellOf (tbGst df_tb tb_text credit debit) r tb_text) == k)).map
        (fun r => valNum (cellOf (tbGst df_tb tb_text credit debit) r "Difference as per TB"))
      = ((df_tb.rows.filter (fun r => isinGst (cellOf df_tb r tb_text))).filter
          (fun r => strKey (cellOf df_tb r tb_text) == k)).map
          (fun r => valNum (cellOf df_tb r credit) - valNum (cellOf df_tb r debit)) := by
    intro k
    rw [htb.2, List.filter_map, List.map_map]
    have hfeq : (df_tb.rows.filter (fun r => isinGst (cellOf df_tb r tb_text))).filter
        ((fun r => strKey (cellOf (tbGst df_tb tb_text credit debit) r tb_text) == k) ∘
          (fun r => r ++ [Value.num (valNum (cellOf df_tb r credit)
            - valNum (cellOf df_tb r debit))]))
        = (df_tb.rows.filter (fun r => isinGst (cellOf df_tb r tb_text))).filter
          (fun r => strKey (cellOf df_tb r tb_text) == k) := by
      apply List.filter_congr
      intro r hr
      show (strKey (cellOf (tbGst df_tb tb_text credit debit)
        (r ++ [Value.num (valNum (cellOf df_tb r credit) - valNum (cellOf df_tb r debit))])
        tb_text) == k) = _
      rw [hKext r (List.mem_of_mem_filter hr)]
    rw [hfeq]
    apply List.map_congr_left
    intro r hr
    exact hDext r (List.mem_of_mem_filter (List.mem_of_mem_filter hr))
  have htbAgg : groupbySum (tbGst df_tb tb_text credit debit) tb_text "Difference as per TB"
      = (sortStrings (((df_tb.rows.filter (fun r => isinGst (cellOf df_tb r tb_text))).map
          (fun r => strKey (cellOf df_tb r tb_text))).dedup)).map
        (fun k => (k, (((df_tb.rows.filter (fun r => isinGst (cellOf df_tb r tb_text))).filter
          (fun r => strKey (cellOf df_tb r tb_text) == k)).map
          (fun r => valNum (cellOf df_tb r credit) - valNum (cellOf df_tb r debit))).sum)) := by
    show (sortStrings (((tbGst df_tb tb_text credit debit).rows.map
        (fun r => strKey (cellOf (tbGst df_tb tb_text credit debit) r tb_text))).dedup)).map
        (fun k => (k, (((tbGst df_tb tb_text credit debit).rows.filter
          (fun r => strKey (cellOf (tbGst df_tb tb_text credit debit) r tb_text) == k)).map
          (fun r => valNum (cellOf (tbGst df_tb tb_text credit debit) r
            "Difference as per TB"))).sum)) = _
    rw [hmapkeys]
    apply List.map_congr_left
    intro k _
    rw [hvals k]
  refine ⟨rfl, ?_, nodup_sortStrings _ (List.nodup_dedup _), ?_⟩
  · show ((groupbySum (dfGst df_gl gl_text) gl_text val_col).map
        (fun p => [Value.str p.1, Value.num p.2,
          Value.num (lookupD (groupbySum (tbGst df_tb tb_text credit debit) tb_text
            "Difference as per TB") p.1)])) = _
    rw [htbAgg]
    have hgl : groupbySum (dfGst df_gl gl_text) gl_text val_col
        = (sortStrings (((df_gl.rows.filter (fun r => isinGst (cellOf df_gl r gl_text))).map
            (fun r => strKey (cellOf df_gl r gl_text))).dedup)).map
          (fun k => (k, (((df_gl.rows.filter (fun r => isinGst (cellOf df_gl r gl_text))).filter
            (fun r => strKey (cellOf df_gl r gl_text) == k)).map
            (fun r => valNum (cellOf df_gl r val_col))).sum)) := rfl
    rw [hgl, List.map_map]
    apply List.map_congr_left
    intro k _
    have hlook := lookupD_graph
      (fun k0 => (((df_tb.rows.filter (fun r => isinGst (cellOf df_tb r tb_text))).filter
        (fun r => strKey (cellOf df_tb r tb_text) == k0)).map
        (fun r => valNum (cellOf df_tb r credit) - valNum (cellOf df_tb r debit))).sum)
      (sortStrings (((df_tb.rows.filter (fun r => isinGst (cellOf df_tb r tb_text))).map
        (fun r => strKey (cellOf df_tb r tb_text))).dedup)) k
    show [Value.str k, Value.num _, Value.num _] = [Value.str k, Value.num _, Value.num _]
    rw [hlook, if_congr ((mem_sortStrings _ _).trans List.mem_dedup) rfl rfl]
  · intro k
    rw [mem_sortStrings, List.mem_dedup, List.mem_map]
    constructor
    · rintro ⟨r, hr, rfl⟩
      have hm := List.mem_filter.mp hr
      exact ⟨r, hm.1, hm.2, rfl⟩
    · rintro ⟨r, hr, hisin, hkey⟩
      exact ⟨r, List.mem_filter.mpr ⟨hr, hisin⟩, hkey⟩

theorem summary_characterization_witness :
    (summary_df glCex tbCex "G/L Long Text" "Value" "TB Text" "Credit" "Debit").columns
      = ["GST Type", "GST Payable as per GL", "Difference as per TB"] :=
  (summary_characterization glCex tbCex "G/L Long Text" "Value" "TB Text" "Credit" "Debit"
    (by decide) (by decide) (by decide)).1

/-- C2 counterexample: the reconciler's summary for a concrete GL/TB pair
(GL sum 18, TB difference 18) has only the three columns — no Net
Difference value is computed before composition — and the composed
"Net Difference" cell for data row 2 holds the formula "=B2+C2", which
evaluates to 18 + 18 = 36, not GL − TB = 0. -/
theorem net_difference_sign_cex :
    (summary_df glCex tbCex "G/L Long Text" "Value" "TB Text" "Credit" "Debit").rows
      = [[Value.str "Central GST Payable", Value.num 18, Value.num 18]]
    ∧ "Net Difference"
      ∉ (summary_df glCex tbCex "G/L Long Text" "Value" "TB Text" "Credit" "Debit").columns
    ∧ (summaryFinalize 2).2 = [⟨2, 4, "=B2+C2", "0.00"⟩]
    ∧ netDiffFormulaValue 18 18 = 36
    ∧ ¬(netDiffFormulaValue 18 18 = 18 - 18) := by
  refine ⟨by decide, by decide, by decide, by decide, by decide⟩

/-- C2 (amended): the reconciler computes no Net Difference at all — the
summary it builds has exactly the columns (GST Type, GST Payable as per GL,
Difference as per TB).  A "Net Difference" column appears only during
workbook composition, as the spreadsheet formula "=B{r}+C{r}" per data row,
whose value is GL + TB — an addition, not the subtraction GL − TB. -/
theorem net_difference_only_composed (df_gl df_tb : DataFrame)
    (gl_text val_col tb_text credit debit : String) (maxRow : Nat) :
    (summary_df df_gl df_tb gl_text val_col tb_text credit debit).columns
      = ["GST Type", "GST Payable as per GL", "Difference as per TB"]
    ∧ "Net Difference"
      ∉ (summary_df df_gl df_tb gl_text val_col tb_text credit debit).columns
    ∧ (∀ fc ∈ (summaryFinalize maxRow).2,
        fc.formula = "=B" ++ toString fc.row ++ "+C" ++ toString fc.row)
    ∧ (∀ b c : Int, netDiffFormulaValue b c = b + c) := by
  refine ⟨rfl, ?_, ?_, fun b c => rfl⟩
  · show "Net Difference" ∉ (["GST Type", "GST Payable as per GL", "Difference as per TB"] : List String)
    decide
  · intro fc hfc
    obtain ⟨r, hr, rfl⟩ := List.mem_map.mp hfc
    rfl

theorem net_difference_only_composed_witness :
    (summary_df glCex tbCex "G/L Long Text" "Value" "TB Text" "Credit" "Debit").columns
      = ["GST Type", "GST Payable as per GL", "Difference as per TB"]
    ∧ (FormulaCell.mk 2 4 "=B2+C2" "0.00").formula = "=B" ++ toString 2 ++ "+C" ++ toString 2 :=
  ⟨(net_difference_only_composed glCex tbCex "G/L Long Text" "Value" "TB Text" "Credit"
      "Debit" 2).1,
   (net_difference_only_composed glCex tbCex "G/L Long Text" "Value" "TB Text" "Credit"
      "Debit" 2).2.2.1 ⟨2, 4, "=B2+C2", "0.00"⟩ (by decide)⟩

/-- C5: during composition a column headed "Net Difference" is added as the
fourth column of the summary sheet (whose first three columns are GST Type,
GST Payable as per GL and Difference as per TB): the header cell is
(row 1, column 4), and for every data row r with 2 ≤ r ≤ max_row — and only
those rows — column 4 receives the formula "=B{r}+C{r}" adding the GL
column B and the TB column C, with number format "0.00" (two decimals). -/
theorem net_difference_formula_column (maxRow : Nat) :
    (summaryFinalize maxRow).1 = (1, 4, "Net Difference")
    ∧ (∀ dfG dfT a b c, (mkSummary dfG dfT a b c).columns
        = ["GST Type", "GST Payable as per GL", "Difference as per TB"])
    ∧ (∀ r, 2 ≤ r → r ≤ maxRow →
        (⟨r, 4, "=B" ++ toString r ++ "+C" ++ toString r, "0.00"⟩ : FormulaCell)
          ∈ (summaryFinalize maxRow).2)
    ∧ (∀ fc ∈ (summaryFinalize maxRow).2,
        2 ≤ fc.row ∧ fc.row ≤ maxRow ∧ fc.col = 4
        ∧ fc.formula = "=B" ++ toString fc.row ++ "+C" ++ toString fc.row
        ∧ fc.numberFormat = "0.00") := by
  refine ⟨rfl, fun _ _ _ _ _ => rfl, ?_, ?_⟩
  · intro r h2 hm
    apply List.mem_map.mpr
    refine ⟨r, ?_, rfl⟩
    rw [List.mem_range']
    exact ⟨r - 2, by omega, by omega⟩
  · intro fc hfc
    obtain ⟨r, hr, rfl⟩ := List.mem_map.mp hfc
    rw [List.mem_range'] at hr
    obtain ⟨i, hi, rfl⟩ := hr
    refine ⟨?_, ?_, rfl, rfl, rfl⟩
    · show 2 ≤ 2 + 1 * i
      omega
    · show 2 + 1 * i ≤ maxRow
      omega

theorem net_difference_formula_column_witness :
    (⟨2, 4, "=B" ++ toString 2 ++ "+C" ++ toString 2, "0.00"⟩ : FormulaCell)
      ∈ (summaryFinalize 3).2 :=
  (net_difference_formula_column 3).2.2.1 2 (by decide) (by decide)

theorem signFlipRow_nil (dtIdx : Nat) (amtIdx : List Nat) :
    signFlipRow dtIdx amtIdx [] = [] := rfl

theorem getD_map_signFlip (dt : Nat) (amts : List Nat) (l : List (List Value)) (i : Nat) :
    (l.map (signFlipRow dt amts)).getD i [] = signFlipRow dt amts (l.getD i []) := by
  induction l generalizing i with
  | nil => simp [signFlipRow_nil]
  | cons r rs ih =>
    cases i with
    | zero => simp
    | succ n =>
      simp only [List.map_cons, List.getD_cons_succ]
      exact ih n

theorem getD_range_map {α : Type} (f : Nat → α) (n j : Nat) (d : α) :
    ((List.range n).map f).getD j d = if j < n then f j else d := by
  rw [List.getD_eq_getElem?_getD, List.getElem?_map]
  by_cases h : j < n
  · rw [List.getElem?_range h, if_pos h]
    rfl
  · rw [if_neg h, List.getElem?_eq_none (by simp; omega)]
    rfl

theorem signFlipRow_length (dtIdx : Nat) (amtIdx : List Nat) (row : List Value) :
    (signFlipRow dtIdx amtIdx row).length = row.length := by
  unfold signFlipRow
  split
  · simp
  · rfl

/-- C8: the sign-normalization pass flips the sign of exactly the numeric
cells of the resolved amount columns in the rows whose Document Type cell
is "C"; every row whose Document Type cell is not "C" is returned
unchanged, and in a "C" row every non-amount cell and every non-numeric
amount cell is unchanged; columns and row counts are preserved. -/
theorem sign_flip_characterization (ws out : DataFrame) (dt : Nat) (amts : List Nat)
    (hdt : headerIdx ws "Document Type" = Except.ok dt)
    (hamts : amtHeaders.mapM (fun hh => headerIdx ws hh) = Except.ok amts)
    (hout : signFlipPass ws = Except.ok out) :
    out.columns = ws.columns
    ∧ out.rows.length = ws.rows.length
    ∧ (∀ i, (ws.rows.getD i []).getD dt Value.empty ≠ Value.str "C" →
        out.rows.getD i [] = ws.rows.getD i [])
    ∧ (∀ i, (out.rows.getD i []).length = (ws.rows.getD i []).length)
    ∧ (∀ i j, (ws.rows.getD i []).getD dt Value.empty = Value.str "C" →
        j < (ws.rows.getD i []).length →
        (out.rows.getD i []).getD j Value.empty =
          (if j ∈ amts
           then negateIfNum ((ws.rows.getD i []).getD j Value.empty)
           else (ws.rows.getD i []).getD j Value.empty)) := by
  unfold signFlipPass at hout
  rw [hdt, hamts] at hout
  simp only [] at hout
  obtain rfl := (Except.ok.inj hout).symm
  refine ⟨rfl, by simp, ?_, ?_, ?_⟩
  · intro i hne
    show (ws.rows.map (signFlipRow dt amts)).getD i [] = _
    rw [getD_map_signFlip]
    unfold signFlipRow
    rw [if_neg hne]
  · intro i
    show ((ws.rows.map (signFlipRow dt amts)).getD i []).length = _
    rw [getD_map_signFlip, signFlipRow_length]
  · intro i j hC hj
    show ((ws.rows.map (signFlipRow dt amts)).getD i []).getD j Value.empty = _
    rw [getD_map_signFlip]
    unfold signFlipRow
    rw [if_pos hC, getD_range_map, if_pos hj]
    unfold signFlipCell
    by_cases hmem : j ∈ amts
    · rw [if_pos (by simpa using hmem), if_pos hmem]
    · rw [if_neg (by simpa using hmem), if_neg hmem]

theorem sign_flip_witness :
    (DataFrame.mk wsFlip.columns
      [[Value.str "C", Value.num (-5), Value.num (-1), Value.str "x", Value.empty]]).columns
      = wsFlip.columns :=
  (sign_flip_characterization wsFlip _ 0 [1, 2, 3, 4] rfl rfl rfl).1

theorem classify_exempt (it dt : Value) (tr : Int)
    (h1 : it ≠ Value.str "SEWOP") (h2 : it ≠ Value.str "SEWP") (h3 : tr = 0) :
    classify it dt tr = "Exempt supply" := by
  unfold classify
  rw [if_neg h1, if_neg h2, if_pos ⟨⟨h1, h2⟩, h3⟩]

theorem classify_b2b_cn (dt : Value) (tr : Int)
    (h2 : dt = Value.str "C") (h3 : tr ≠ 0) :
    classify (Value.str "B2B") dt tr = "B2B Credit Notes" := by
  unfold classify
  rw [if_neg (by decide), if_neg (by decide), if_neg (fun hc => h3 hc.2),
    if_pos ⟨rfl, h2, h3⟩]

theorem classify_b2b_sup (dt : Value) (tr : Int)
    (h2 : dt ≠ Value.str "C") (h3 : tr ≠ 0) :
    classify (Value.str "B2B") dt tr = "B2B Supplies" := by
  unfold classify
  rw [if_neg (by decide), if_neg (by decide), if_neg (fun hc => h3 hc.2),
    if_neg (fun hc => h2 hc.2.1), if_pos ⟨rfl, h2, h3⟩]

theorem classify_b2cs (dt : Value) (tr : Int) (h3 : tr ≠ 0) :
    classify (Value.str "B2CS") dt tr = "B2C Supplies" := by
  unfold classify
  rw [if_neg (by decide), if_neg (by decide), if_neg (fun hc => h3 hc.2),
    if_neg (fun hc => absurd hc.1 (by decide)), if_neg (fun hc => absurd hc.1 (by decide)),
    if_pos ⟨rfl, h3⟩]

theorem classify_default (it dt : Value) (tr : Int)
    (h1 : it ≠ Value.str "SEWOP") (h2 : it ≠ Value.str "SEWP")
    (h3 : it ≠ Value.str "B2B") (h4 : it ≠ Value.str "B2CS") (h5 : tr ≠ 0) :
    classify it dt tr = "" := by
  unfold classify
  rw [if_neg h1, if_neg h2, if_neg (fun hc => h5 hc.2), if_neg (fun hc => h3 hc.1),
    if_neg (fun hc => h3 hc.1), if_neg (fun hc => h4 hc.1)]

/-- C9: on a row whose tax-rate cell coerces (numeric, empty or blank), the
classification assigns exactly one label, always drawn from
{SEZWOP, SEWP, Exempt supply, B2B Credit Notes, B2B Supplies,
B2C Supplies, ""}, and it follows the fixed priority order: the two SEZ
invoice types are decided first, then the zero-tax-rate exemption, then
the B2B/B2C categorization, with "" as the fall-through. -/
theorem classification_characterization (it dt trv : Value) (tr : Int)
    (_htr : pyFloat trv = Except.ok tr) :
    classify it dt tr ∈ salesSummaryLabels
    ∧ (it = Value.str "SEWOP" → classify it dt tr = "SEZWOP")
    ∧ (it ≠ Value.str "SEWOP" → it = Value.str "SEWP" → classify it dt tr = "SEWP")
    ∧ (it ≠ Value.str "SEWOP" → it ≠ Value.str "SEWP" → tr = 0 →
        classify it dt tr = "Exempt supply")
    ∧ (it = Value.str "B2B" → tr = 0 → classify it dt tr = "Exempt supply")
    ∧ (it = Value.str "B2CS" → tr = 0 → classify it dt tr = "Exempt supply")
    ∧ (it = Value.str "B2B" → dt = Value.str "C" → tr ≠ 0 →
        classify it dt tr = "B2B Credit Notes")
    ∧ (it = Value.str "B2B" → dt ≠ Value.str "C" → tr ≠ 0 →
        classify it dt tr = "B2B Supplies")
    ∧ (it = Value.str "B2CS" → tr ≠ 0 → classify it dt tr = "B2C Supplies")
    ∧ (it ≠ Value.str "SEWOP" → it ≠ Value.str "SEWP" → it ≠ Value.str "B2B" →
        it ≠ Value.str "B2CS" → tr ≠ 0 → classify it dt tr = "") := by
  refine ⟨?_, ?_, ?_, ?_, ?_, ?_, ?_, ?_, ?_, ?_⟩
  · unfold classify
    split_ifs <;> simp [salesSummaryLabels]
  · intro h
    unfold classify
    rw [if_pos h]
  · intro h1 h2
    unfold classify
    rw [if_neg h1, if_pos h2]
  · exact classify_exempt it dt tr
  · intro h h0
    subst h
    exact classify_exempt _ dt tr (by decide) (by decide) h0
  · intro h h0
    subst h
    exact classify_exempt _ dt tr (by decide) (by decide) h0
  · intro h h2 h3
    subst h
    exact classify_b2b_cn dt tr h2 h3
  · intro h h2 h3
    subst h
    exact classify_b2b_sup dt tr h2 h3
  · intro h h3
    subst h
    exact classify_b2cs dt tr h3
  · exact classify_default it dt tr

theorem classification_witness :
    classify (Value.str "B2B") (Value.str "C") 18 ∈ salesSummaryLabels :=
  (classification_characterization (Value.str "B2B") (Value.str "C") (Value.num 18) 18 rfl).1

theorem pivotStepOk_false (ws : DataFrame) : pivotStepOk ws = false := by
  unfold pivotStepOk pivotStep
  match hm : pivotHeaders.mapM (fun hh => headerIdx ws hh) with
  | Except.error e => rfl
  | Except.ok l => rfl

/-- C1 counterexample: the concrete workbooks sdW/srW/tbW/glW are inputs on
which every pre-pivot stage of the handler body succeeds — exactly the
claim's hypothesis — yet submitting them produces no processing run that
ends in the error branch: the script dies at its line-6 from-statement with
ImportError (openpyxl.pivot.table has no PivotTable), the guarded handler
and its except branch never execute, and the pivot step never reads
anything from pd.api.types. -/
theorem handler_never_reached_cex :
    stagesOk sdW srW tbW glW = true
    ∧ runScript sdW srW tbW glW = ScriptOutcome.importError
        "ImportError: cannot import name \x27PivotTable\x27 from \x27openpyxl.pivot.table\x27"
    ∧ handlerRan (runScript sdW srW tbW glW) = false
    ∧ successShown (runScript sdW srW tbW glW) = false
    ∧ storedOutputs (runScript sdW srW tbW glW) = [] := by
  refine ⟨rfl, rfl, rfl, rfl, rfl⟩

/-- C1 (amended): no processing run ever reaches the pivot step or the
handler's error branch.  The script's line-6/7 from-statements request
PivotTable from openpyxl.pivot.table and PivotCache from
openpyxl.pivot.cache — names those modules do not export (their classes
are TableDefinition and CacheDefinition) — so the module raises
ImportError at startup, before the UI or the guarded handler exists.
Hence for every set of four input workbooks the handler never runs, the
success message is never shown and no output bytes are ever stored; and
the pivot block could not complete in any case, its bindings having never
been created, with the pd.api.types.DataField read of line 210 never
evaluated. -/
theorem import_failure_no_run (sd sr tb gl ws : DataFrame) :
    importScript = Except.error
        "ImportError: cannot import name \x27PivotTable\x27 from \x27openpyxl.pivot.table\x27"
    ∧ runScript sd sr tb gl = ScriptOutcome.importError
        "ImportError: cannot import name \x27PivotTable\x27 from \x27openpyxl.pivot.table\x27"
    ∧ handlerRan (runScript sd sr tb gl) = false
    ∧ successShown (runScript sd sr tb gl) = false
    ∧ storedOutputs (runScript sd sr tb gl) = []
    ∧ pivotStepOk ws = false :=
  ⟨rfl, rfl, rfl, rfl, rfl, pivotStepOk_false ws⟩

theorem import_failure_no_run_witness :
    handlerRan (runScript sdW srW tbW glW) = false
    ∧ storedOutputs (runScript sdW srW tbW glW) = [] :=
  ⟨(import_failure_no_run sdW srW tbW glW sdW).2.2.1,
   (import_failure_no_run sdW srW tbW glW sdW).2.2.2.2.1⟩

end GSTR1

